import Mathlib

/-!
Verification of the generation pipeline of a small Nuxt SSR AI component
generator.  The server handler (`server/api/ai.ts`) validates a prompt query
parameter, issues one chat-completion call, validates and repairs the
structured response, shells out to the Tailwind CLI to compile a stylesheet,
and returns the combined payload.  The client shell (`app.vue`) instantiates
the returned template/script pair as a dynamic component, executing the
script inside a function scope that receives only `ref` and `computed`.

The embedding below mirrors the TypeScript source.  External effects (the
LLM call, the filesystem and subprocess operations of the Tailwind adapter)
are modelled by explicit outcome parameters, and the handler returns its
result together with a trace recording how many LLM calls and compiler
invocations it performed.
-/

namespace NuxtSsrAi

/-- JavaScript whitespace characters relevant to `String.prototype.trim`
(space, tab, line feed, carriage return, vertical tab, form feed,
no-break space, byte-order mark). -/
def isJsWhitespace (c : Char) : Bool :=
  c = ' ' || c = '\t' || c = '\n' || c = '\r' || c = '\x0b' ||
  c = '\x0c' || c = '\u00a0' || c = '\ufeff'

/-- Embedding of JavaScript `s.trim()`: strip leading and trailing
whitespace. -/
def jsTrim (s : String) : String :=
  ⟨((s.data.dropWhile isJsWhitespace).reverse.dropWhile isJsWhitespace).reverse⟩

/-- `s.trim().length` from the source's validation checks. -/
def trimmedLen (s : String) : Nat :=
  (jsTrim s).length

/-- Does `pat` occur as a contiguous run inside the character list?  Embeds
JavaScript `String.prototype.includes`. -/
def hasSubstr (pat : List Char) : List Char → Bool
  | [] => pat.isEmpty
  | c :: rest => pat.isPrefixOf (c :: rest) || hasSubstr pat rest

/-- Embedding of JavaScript `s.includes(pat)`. -/
def includes (s pat : String) : Bool :=
  hasSubstr pat.data s.data

/-- The validated structured response shape (`AIResponseSchema`):
`template` required, `script` and `css` optional. -/
structure AIResponse where
  template : String
  script : Option String
  css : Option String
deriving DecidableEq, Repr

/-- The `prompt` query parameter as seen by the handler: absent,
present but not a string (e.g. repeated parameter), or a string. -/
inductive QueryPrompt where
  | missing
  | nonString
  | str (s : String)
deriving DecidableEq, Repr

/-- Outcome of the single `openai.chat.completions.create` call together
with the subsequent parse/validation of its content:
the call itself rejects with an error message, the message content is
`null`, `JSON.parse` throws, `AIResponseSchema.parse` throws, or a
validated response is obtained. -/
inductive LLMResult where
  | callThrows (msg : String)
  | noContent
  | badJson
  | schemaFail
  | ok (r : AIResponse)
deriving DecidableEq, Repr

/-- Outcomes of the filesystem and subprocess steps performed by
`generateTailwindCss`, in source order: `mkdtempSync`, the three
`writeFileSync` calls (config, template, input css), `execSync` of the
Tailwind CLI, `readFileSync` of the output, and `rmSync` cleanup.
`output` is the content of `output.css` when the read succeeds. -/
structure FsEnv where
  mkdtempOk : Bool
  writeConfigOk : Bool
  writeTemplateOk : Bool
  writeInputOk : Bool
  execOk : Bool
  readOk : Bool
  rmOk : Bool
  output : String
deriving DecidableEq, Repr

/-- What `generateTailwindCss` did to its temporary directory:
whether `mkdtempSync` created it, whether `rmSync` was reached,
and whether the removal succeeded. -/
structure TwTrace where
  dirCreated : Bool
  rmCalled : Bool
  dirRemoved : Bool
deriving DecidableEq, Repr

/-- Embedding of `generateTailwindCss` (`server/api/ai.ts`).  Any throwing
step transfers control to the surrounding catch, which returns `""`.  The
`rmSync` cleanup sits after the successful `readFileSync`, wrapped in its
own try/catch whose failure is only logged.  The markup string is written
into the temporary directory but does not influence control flow. -/
def generateTailwindCss (template : String) (env : FsEnv) : String × TwTrace :=
  if env.mkdtempOk = false then ("", ⟨false, false, false⟩)
  else if env.writeConfigOk = false then ("", ⟨true, false, false⟩)
  else if env.writeTemplateOk = false then ("", ⟨true, false, false⟩)
  else if env.writeInputOk = false then ("", ⟨true, false, false⟩)
  else if env.execOk = false then ("", ⟨true, false, false⟩)
  else if env.readOk = false then ("", ⟨true, false, false⟩)
  else (env.output, ⟨true, true, env.rmOk⟩)

/-- All steps of `generateTailwindCss` up to and including the output read
succeed (the cleanup outcome is irrelevant to the returned stylesheet). -/
def allTwStepsOk (env : FsEnv) : Bool :=
  env.mkdtempOk && env.writeConfigOk && env.writeTemplateOk &&
  env.writeInputOk && env.execOk && env.readOk

/-- The script-repair step of the handler: if a script is present
(non-empty, per JavaScript truthiness) and lacks the substring
`return {`, append `\nreturn {};`. -/
def repairScript : Option String → Option String
  | none => none
  | some s =>
    if s = "" then some s
    else if includes s "return \x7b" then some s
    else some (s ++ "\nreturn \x7b\x7d;")

/-- The handler's result: an error object carrying a status code and a
message, or the validated payload. -/
inductive HandlerResult where
  | error (statusCode : Nat) (message : String)
  | ok (payload : AIResponse)
deriving DecidableEq, Repr

/-- Effect trace of one handler invocation. -/
structure HTrace where
  llmCalls : Nat
  compilerCalls : Nat
deriving DecidableEq, Repr

/-- Embedding of the `defineEventHandler` body of `server/api/ai.ts`.
Control flow follows the source: prompt truthiness and type check, trimmed
length check, one LLM call, content/parse/schema checks, Tailwind
compilation of the template (before the template-length validation, as in
the source), template validation, script repair, and the error funnels:
errors thrown inside the inner try become the 500 "Failed to parse
AI-generated component" response; errors before it surface their own
message through the outer catch. -/
def handler (q : QueryPrompt) (llm : LLMResult) (env : FsEnv) :
    HandlerResult × HTrace :=
  match q with
  | .missing => (.error 400 "Missing or invalid prompt parameter", ⟨0, 0⟩)
  | .nonString => (.error 400 "Missing or invalid prompt parameter", ⟨0, 0⟩)
  | .str s =>
    if s = "" then (.error 400 "Missing or invalid prompt parameter", ⟨0, 0⟩)
    else if trimmedLen s < 3 then (.error 400 "Prompt is too short", ⟨0, 0⟩)
    else
      match llm with
      | .callThrows msg =>
        (.error 500 (if msg = "" then "Failed to generate component" else msg),
         ⟨1, 0⟩)
      | .noContent => (.error 500 "No content returned from AI", ⟨1, 0⟩)
      | .badJson => (.error 500 "Failed to parse AI-generated component", ⟨1, 0⟩)
      | .schemaFail => (.error 500 "Failed to parse AI-generated component", ⟨1, 0⟩)
      | .ok r =>
        let generatedCss := (generateTailwindCss r.template env).1
        if r.template = "" || trimmedLen r.template < 10 then
          (.error 500 "Failed to parse AI-generated component", ⟨1, 1⟩)
        else
          (.ok { template := r.template
                 script := repairScript r.script
                 css := some generatedCss }, ⟨1, 1⟩)

/-- Behavior of the model-generated script when executed in the client's
dynamic component host (`app.vue`): it runs to an explicit `return`
(abstracted by a numeric tag for the returned bindings record), it runs off
the end without returning, it throws at runtime, or it is not even
parseable so the `Function` constructor itself throws. -/
inductive ScriptBehavior where
  | completes (v : Nat)
  | fallsThrough
  | throwsRuntime
  | badSyntax
deriving DecidableEq, Repr

/-- Result of the component `setup`: the bindings returned by the script,
or the empty record `{}`. -/
inductive SetupResult where
  | val (v : Nat)
  | empty
deriving DecidableEq, Repr

/-- The `new Function(...)` construction step: throws (as `Except.error`)
exactly when the script text is not parseable. -/
def newFunction (b : ScriptBehavior) : Except String Unit :=
  match b with
  | .badSyntax => .error "SyntaxError"
  | _ => .ok ()

/-- Executing the constructed function body.  The generated body wraps the
script in its own try/catch: a runtime throw is caught there, logged to the
console, and replaced by `return {}`; a script without a return falls
through to the trailing `return {}`.  The body never propagates an
exception. -/
def invokeSetupFn (b : ScriptBehavior) : SetupResult :=
  match b with
  | .completes v => .val v
  | .fallsThrough => .empty
  | .throwsRuntime => .empty
  | .badSyntax => .empty

/-- Embedding of the `setup()` closure in `app.vue`: construct the function,
invoke it; the outer try/catch turns a construction failure into the
user-visible error state (`error.value` set, second component `true`) and
an empty result.  The returned pair is total: no exception escapes. -/
def runSetup (b : ScriptBehavior) : SetupResult × Bool :=
  match newFunction b with
  | .error _ => (.empty, true)
  | .ok _ => (invokeSetupFn b, false)

/-! ## Helper lemmas -/

theorem trimmedLen_ne_empty {s : String} (h : 1 ≤ trimmedLen s) : s ≠ "" := by
  intro he
  subst he
  exact absurd h (by decide)

theorem hasSubstr_append_right (pat l m : List Char) (h : hasSubstr pat m = true) :
    hasSubstr pat (l ++ m) = true := by
  induction l with
  | nil => simpa using h
  | cons c l ih =>
    simp only [List.cons_append, hasSubstr, Bool.or_eq_true]
    exact Or.inr ih

theorem includes_append_marker (s : String) :
    includes (s ++ "\nreturn \x7b\x7d;") "return \x7b" = true := by
  have h : hasSubstr ("return \x7b").data ("\nreturn \x7b\x7d;").data = true := by decide
  have h2 := hasSubstr_append_right ("return \x7b").data s.data ("\nreturn \x7b\x7d;").data h
  simpa [includes, String.data_append] using h2

theorem generateTailwindCss_fail (t : String) (env : FsEnv)
    (h : allTwStepsOk env = false) : (generateTailwindCss t env).1 = "" := by
  unfold allTwStepsOk at h
  unfold generateTailwindCss
  cases h1 : env.mkdtempOk <;> cases h2 : env.writeConfigOk <;>
    cases h3 : env.writeTemplateOk <;> cases h4 : env.writeInputOk <;>
    cases h5 : env.execOk <;> cases h6 : env.readOk <;> simp_all

theorem handler_ok_eq (s : String) (r : AIResponse) (env : FsEnv)
    (h3 : 3 ≤ trimmedLen s) (h10 : 10 ≤ trimmedLen r.template) :
    handler (.str s) (.ok r) env =
      (.ok ⟨r.template, repairScript r.script,
            some ((generateTailwindCss r.template env).1)⟩, ⟨1, 1⟩) := by
  have hne : s ≠ "" := trimmedLen_ne_empty (by omega)
  have hlt : ¬ trimmedLen s < 3 := by omega
  have htne : r.template ≠ "" := trimmedLen_ne_empty (by omega)
  have htlt : ¬ trimmedLen r.template < 10 := by omega
  simp [handler, hne, hlt, htne, htlt]

/-! ## Claim theorems -/

/-- C1: for every request whose prompt query parameter is missing,
non-string, or has trimmed length < 3, the handler returns a 400-status
error with one of the two specific validation messages, and issues no LLM
call. -/
theorem invalid_prompt_rejected_without_llm_call
    (q : QueryPrompt) (llm : LLMResult) (env : FsEnv)
    (h : q = .missing ∨ q = .nonString ∨
         ∃ s, q = .str s ∧ trimmedLen s < 3) :
    ((handler q llm env).1 = .error 400 "Missing or invalid prompt parameter" ∨
     (handler q llm env).1 = .error 400 "Prompt is too short") ∧
    (handler q llm env).2.llmCalls = 0 := by
  rcases h with rfl | rfl | ⟨s, rfl, hs⟩
  · exact ⟨Or.inl rfl, rfl⟩
  · exact ⟨Or.inl rfl, rfl⟩
  · by_cases he : s = ""
    · simp [handler, he]
    · simp [handler, he, hs]

/-- Witness for C1 at the concrete prompt `"x"` (trimmed length 1 < 3). -/
theorem invalid_prompt_rejected_without_llm_call_witness :
    ((handler (.str "x") .noContent ⟨true, true, true, true, true, true, true, ""⟩).1
        = .error 400 "Missing or invalid prompt parameter" ∨
     (handler (.str "x") .noContent ⟨true, true, true, true, true, true, true, ""⟩).1
        = .error 400 "Prompt is too short") ∧
    (handler (.str "x") .noContent ⟨true, true, true, true, true, true, true, ""⟩).2.llmCalls = 0 :=
  invalid_prompt_rejected_without_llm_call (.str "x") .noContent
    ⟨true, true, true, true, true, true, true, ""⟩
    (Or.inr (Or.inr ⟨"x", rfl, by decide⟩))

/-- C2 counterexample: when the Tailwind CLI subprocess (`execSync`) fails,
the temporary directory created by `mkdtempSync` is never removed —
`rmSync` sits after the successful read and is not on the catch path — so
the directory is leaked, refuting "removed after use on every exit path".
The adapter still returns `""` for the stylesheet. -/
theorem tmpdir_cleanup_cex :
    ((generateTailwindCss "<div>x</div>"
        ⟨true, true, true, true, false, true, true, "out"⟩).2.dirCreated = true) ∧
    ((generateTailwindCss "<div>x</div>"
        ⟨true, true, true, true, false, true, true, "out"⟩).2.rmCalled = false) ∧
    ((generateTailwindCss "<div>x</div>"
        ⟨true, true, true, true, false, true, true, "out"⟩).1 = "") := by
  decide

/-- C2 amended: the temporary directory is removed only on the full success
path — `rmSync` is reached exactly when directory creation, the three file
writes, the subprocess, and the output read all succeed.  On any failure
after creation the directory is leaked and the adapter returns `""`.  When
cleanup itself fails it is only logged: the compiled output is still
returned. -/
theorem tmpdir_cleanup_amended (t : String) (env : FsEnv) :
    ((generateTailwindCss t env).2.rmCalled = allTwStepsOk env) ∧
    (allTwStepsOk env = true → (generateTailwindCss t env).1 = env.output) ∧
    ((generateTailwindCss t env).2.dirCreated = true →
      (generateTailwindCss t env).2.rmCalled = false →
      (generateTailwindCss t env).1 = "") := by
  unfold generateTailwindCss allTwStepsOk
  cases h1 : env.mkdtempOk <;> cases h2 : env.writeConfigOk <;>
    cases h3 : env.writeTemplateOk <;> cases h4 : env.writeInputOk <;>
    cases h5 : env.execOk <;> cases h6 : env.readOk <;> simp_all

/-- Witness for C2 amended: with every step succeeding but `rmSync`
failing, the compiled stylesheet is still returned. -/
theorem tmpdir_cleanup_amended_witness :
    (generateTailwindCss "x" ⟨true, true, true, true, true, true, false, "css"⟩).1 = "css" :=
  (tmpdir_cleanup_amended "x" ⟨true, true, true, true, true, true, false, "css"⟩).2.1 (by decide)

/-- C3 counterexample: when the model returns the empty template, the
response is indeed a 500-status error, but its message is the generic
"Failed to parse AI-generated component" (the template-invalid error is
swallowed by the inner parse-failure catch), not one indicating an invalid
template; and the style compiler IS invoked (compiler-call count 1) before
validation runs, refuting "never invoked because validation fails before
compilation applies". -/
theorem empty_template_response_cex :
    handler (.str "abc") (.ok ⟨"", none, none⟩)
        ⟨true, true, true, true, true, true, true, "compiled"⟩
      = (.error 500 "Failed to parse AI-generated component", ⟨1, 1⟩) ∧
    ("Failed to parse AI-generated component" : String)
      ≠ "Invalid template returned from AI" := by
  constructor
  · decide
  · decide

/-- C3 amended: if the model returns a template of trimmed length < 10
(in particular the empty template), the response is a 500-status error
with message "Failed to parse AI-generated component"; the style compiler
is invoked exactly once — before validation — and its result is discarded,
since the error response carries no payload. -/
theorem empty_template_discards_compilation (s : String) (r : AIResponse) (env : FsEnv)
    (h3 : 3 ≤ trimmedLen s) (ht : trimmedLen r.template < 10) :
    handler (.str s) (.ok r) env
      = (.error 500 "Failed to parse AI-generated component", ⟨1, 1⟩) := by
  have hne : s ≠ "" := trimmedLen_ne_empty (by omega)
  have hlt : ¬ trimmedLen s < 3 := by omega
  simp [handler, hne, hlt, ht]

/-- Witness for C3 amended at template `"short"` (trimmed length 5 < 10). -/
theorem empty_template_discards_compilation_witness :
    handler (.str "abc") (.ok ⟨"short", some "return \x7b\x7d", none⟩)
        ⟨true, true, true, true, true, true, true, "out"⟩
      = (.error 500 "Failed to parse AI-generated component", ⟨1, 1⟩) :=
  empty_template_discards_compilation "abc" ⟨"short", some "return \x7b\x7d", none⟩
    ⟨true, true, true, true, true, true, true, "out"⟩ (by decide) (by decide)

/-- C4 counterexample: the empty script is present in the validated
response and lacks the substring `return {`, yet — being falsy in
JavaScript — it is NOT repaired: the stored script is `""`, not
`"" ++ "\nreturn {};"`. -/
theorem script_repair_cex :
    (handler (.str "abc") (.ok ⟨"<div>hello</div>", some "", none⟩)
        ⟨true, true, true, true, true, true, true, "out"⟩).1
      = .ok ⟨"<div>hello</div>", some "", some "out"⟩ ∧
    includes "" "return \x7b" = false ∧
    (("" : String) ++ "\nreturn \x7b\x7d;" ≠ "") := by
  refine ⟨by decide, by decide, by decide⟩

/-- C4 amended: for a validated response whose script is present, the
stored script is unmodified when the script is empty (JavaScript
truthiness) or already contains `return {`; otherwise it is exactly the
original text with `\nreturn {};` appended, everything else (template,
css) unaltered. -/
theorem script_repair_amended (prompt s : String) (r : AIResponse) (env : FsEnv)
    (h3 : 3 ≤ trimmedLen prompt) (h10 : 10 ≤ trimmedLen r.template)
    (hs : r.script = some s) :
    (handler (.str prompt) (.ok r) env).1 =
      .ok ⟨r.template,
           some (if s = "" then s
                 else if includes s "return \x7b" then s
                 else s ++ "\nreturn \x7b\x7d;"),
           some ((generateTailwindCss r.template env).1)⟩ := by
  rw [handler_ok_eq prompt r env h3 h10]
  simp only [repairScript, hs]
  split_ifs <;> rfl

/-- Witness for C4 amended: a non-empty script without `return {` gets the
empty-return statement appended. -/
theorem script_repair_amended_witness :
    (handler (.str "abc") (.ok ⟨"<div>hello</div>", some "const a = 1", none⟩)
        ⟨true, true, true, true, true, true, true, "out"⟩).1
      = .ok ⟨"<div>hello</div>", some ("const a = 1" ++ "\nreturn \x7b\x7d;"), some "out"⟩ := by
  rw [script_repair_amended "abc" "const a = 1"
        ⟨"<div>hello</div>", some "const a = 1", none⟩
        ⟨true, true, true, true, true, true, true, "out"⟩
        (by decide) (by decide) rfl]
  decide

/-- C5: if any step of the style-compiler adapter fails (directory
creation, file writes, subprocess, output read), the css field of the
returned payload is the empty string and the request still succeeds with
a 200-status payload, provided the prompt and template passed
validation. -/
theorem compiler_failure_yields_empty_css (s : String) (r : AIResponse) (env : FsEnv)
    (h3 : 3 ≤ trimmedLen s) (h10 : 10 ≤ trimmedLen r.template)
    (hfail : allTwStepsOk env = false) :
    (handler (.str s) (.ok r) env).1
      = .ok ⟨r.template, repairScript r.script, some ""⟩ := by
  rw [handler_ok_eq s r env h3 h10]
  simp [generateTailwindCss_fail r.template env hfail]

/-- Witness for C5: subprocess failure, the payload still comes back with
css `""`. -/
theorem compiler_failure_yields_empty_css_witness :
    (handler (.str "abc") (.ok ⟨"<div>hello</div>", none, none⟩)
        ⟨true, true, true, true, false, true, true, "out"⟩).1
      = .ok ⟨"<div>hello</div>", none, some ""⟩ :=
  compiler_failure_yields_empty_css "abc" ⟨"<div>hello</div>", none, none⟩
    ⟨true, true, true, true, false, true, true, "out"⟩
    (by decide) (by decide) (by decide)

/-- C6: if the model responds but the returned template has trimmed length
< 10 (and likewise if the template is absent, i.e. schema validation
fails), the handler fails the request with a 500-status server error,
regardless of script or css fields. -/
theorem short_template_server_error (s : String) (r : AIResponse) (env : FsEnv)
    (h3 : 3 ≤ trimmedLen s) (h10 : trimmedLen r.template < 10) :
    (handler (.str s) (.ok r) env).1
      = .error 500 "Failed to parse AI-generated component" ∧
    (handler (.str s) .schemaFail env).1
      = .error 500 "Failed to parse AI-generated component" := by
  have hne : s ≠ "" := trimmedLen_ne_empty (by omega)
  have hlt : ¬ trimmedLen s < 3 := by omega
  constructor
  · simp [handler, hne, hlt, h10]
  · simp [handler, hne, hlt]

/-- Witness for C6 at template `""` with arbitrary script and css. -/
theorem short_template_server_error_witness :
    (handler (.str "abc") (.ok ⟨"", some "return \x7b x \x7d", some "body \x7b\x7d"⟩)
        ⟨true, true, true, true, true, true, true, "out"⟩).1
      = .error 500 "Failed to parse AI-generated component" ∧
    (handler (.str "abc") .schemaFail
        ⟨true, true, true, true, true, true, true, "out"⟩).1
      = .error 500 "Failed to parse AI-generated component" :=
  short_template_server_error "abc" ⟨"", some "return \x7b x \x7d", some "body \x7b\x7d"⟩
    ⟨true, true, true, true, true, true, true, "out"⟩ (by decide) (by decide)

/-- C7: for every request whose prompt has trimmed length ≥ 3, the handler
issues exactly one LLM chat-completion call, whatever the LLM outcome,
the response content, and the compiler environment. -/
theorem valid_prompt_one_llm_call (s : String) (llm : LLMResult) (env : FsEnv)
    (h3 : 3 ≤ trimmedLen s) :
    (handler (.str s) llm env).2.llmCalls = 1 := by
  have hne : s ≠ "" := trimmedLen_ne_empty (by omega)
  have hlt : ¬ trimmedLen s < 3 := by omega
  cases llm with
  | callThrows msg => simp [handler, hne, hlt]
  | noContent => simp [handler, hne, hlt]
  | badJson => simp [handler, hne, hlt]
  | schemaFail => simp [handler, hne, hlt]
  | ok r =>
    simp only [handler]
    rw [if_neg hne, if_neg hlt]
    split <;> rfl

/-- Witness for C7 at prompt `"abc"` with a failing LLM call. -/
theorem valid_prompt_one_llm_call_witness :
    (handler (.str "abc") (.callThrows "boom")
        ⟨true, true, true, true, true, true, true, ""⟩).2.llmCalls = 1 :=
  valid_prompt_one_llm_call "abc" (.callThrows "boom")
    ⟨true, true, true, true, true, true, true, ""⟩ (by decide)

/-- C8 counterexample: a behavior script that throws at runtime is caught
by the try/catch that the host bakes into the generated function body,
which only logs to the console and returns the empty record: the setup
result is empty but the user-visible error state is NOT set (second
component `false`), refuting "reported through a user-visible error
state". -/
theorem setup_error_state_cex :
    runSetup ScriptBehavior.throwsRuntime = (SetupResult.empty, false) := rfl

/-- C8 amended: any runtime error thrown while executing the generated
behavior script during setup is caught and replaced with an empty setup
result, but reported only to the console — the user-visible error state is
set exactly when constructing the setup function itself throws (a script
that does not parse).  In every case setup returns a well-defined result:
the empty record, or the bindings of a script that ran to its return. -/
theorem setup_error_handling_amended (b : ScriptBehavior) :
    (b = .throwsRuntime → runSetup b = (.empty, false)) ∧
    (b = .badSyntax → runSetup b = (.empty, true)) ∧
    ((runSetup b).1 = .empty ∨
      ∃ v, b = .completes v ∧ (runSetup b).1 = .val v) := by
  cases b <;> simp [runSetup, newFunction, invokeSetupFn]

/-- Witness for C8 amended: an unparseable script sets the user-visible
error state and yields the empty setup result. -/
theorem setup_error_handling_amended_witness :
    runSetup ScriptBehavior.badSyntax = (SetupResult.empty, true) :=
  (setup_error_handling_amended ScriptBehavior.badSyntax).2.1 rfl

/-- C9: in every successful response of the handler, the css field is
present — it is exactly the style-compiler adapter's output for the
payload's template (possibly the empty string), even though the schema
declares css optional. -/
theorem success_response_css_present (q : QueryPrompt) (llm : LLMResult)
    (env : FsEnv) (p : AIResponse)
    (h : (handler q llm env).1 = .ok p) :
    p.css = some ((generateTailwindCss p.template env).1) := by
  cases q with
  | missing => simp [handler] at h
  | nonString => simp [handler] at h
  | str s =>
    by_cases he : s = ""
    · simp [handler, he] at h
    · by_cases h3 : trimmedLen s < 3
      · simp [handler, he, h3] at h
      · cases llm with
        | callThrows msg =>
          simp only [handler] at h
          rw [if_neg he, if_neg h3] at h
          simp at h
        | noContent => simp [handler, he, h3] at h
        | badJson => simp [handler, he, h3] at h
        | schemaFail => simp [handler, he, h3] at h
        | ok r =>
          simp only [handler] at h
          rw [if_neg he, if_neg h3] at h
          split at h
          · simp at h
          · simp only [Prod.fst] at h
            cases h
            rfl

/-- Witness for C9 on a fully successful run. -/
theorem success_response_css_present_witness :
    (⟨"<div>hello</div>", none, some "out"⟩ : AIResponse).css
      = some ((generateTailwindCss
          (⟨"<div>hello</div>", none, some "out"⟩ : AIResponse).template
          ⟨true, true, true, true, true, true, true, "out"⟩).1) :=
  success_response_css_present (.str "abc") (.ok ⟨"<div>hello</div>", none, none⟩)
    ⟨true, true, true, true, true, true, true, "out"⟩
    ⟨"<div>hello</div>", none, some "out"⟩ (by decide)

/-- C10: the script-repair step is idempotent — applying it twice yields
the same result as applying it once.  A repaired non-empty script always
contains `return {` afterwards; the empty script is left alone by both
applications. -/
theorem script_repair_idempotent (o : Option String) :
    repairScript (repairScript o) = repairScript o := by
  cases o with
  | none => rfl
  | some s =>
    by_cases h0 : s = ""
    · subst h0; rfl
    · by_cases hm : includes s "return \x7b" = true
      · simp [repairScript, h0, hm]
      · have hinc := includes_append_marker s
        by_cases hz : s ++ "\nreturn \x7b\x7d;" = ""
        · simp [repairScript, h0, hm, hz]
        · simp [repairScript, h0, hm, hz, hinc]

end NuxtSsrAi
